import Mathlib

/-!
Verification of the blogicum blog application core (models.py, views.py)
against its specification: the visibility predicate, the four listing
queries (global feed, category feed, profile feed, post detail), and the
mutation guards for posts and comments.

Shallow embedding conventions:
  * `datetime` values are modelled as `Int` timestamps.
  * Django model instances become Lean structures; nullable foreign keys
    become `Option` fields.  A `Post`'s `category` field holds the related
    `Category` object itself (as `post.category` does in Python), or `none`.
  * `request.user` is an `Actor`: either `anonymous` (Django's
    `AnonymousUser`) or `auth id` (an authenticated `User` with primary
    key `id`).  `User.__eq__` compares primary keys, and a `User` never
    equals an `AnonymousUser`.
  * The database is an explicit `DB` value; queryset operations become
    list filters, and views that mutate state return the new `DB`.
-/

/-- `Category(BaseModel)` from models.py: title, description, unique slug,
plus the inherited `is_published` flag.  (`created_at` is auto-set and
never read by the code under verification, so it is omitted.) -/
structure Category where
  id : Nat
  title : String
  description : String
  slug : String
  is_published : Bool
deriving DecidableEq, Repr

/-- `Location(BaseModel)` from models.py: a name plus the inherited
`is_published` flag. -/
structure Location where
  id : Nat
  name : String
  is_published : Bool
deriving DecidableEq, Repr

/-- `Post(BaseModel)` from models.py.  `author` is a required FK stored as
the user's primary key; `category` and `location` are nullable FKs holding
the related object, as the Python attribute access does. -/
structure Post where
  id : Nat
  title : String
  text : String
  image : String
  pub_date : Int
  is_published : Bool
  author : Nat
  location : Option Location
  category : Option Category
deriving DecidableEq, Repr

/-- `Comments` from models.py: text, owning post (FK stored as the post's
primary key), creation timestamp, author (FK stored as the user's primary
key). -/
structure Comment where
  id : Nat
  text : String
  post : Nat
  created_at : Int
  author : Nat
deriving DecidableEq, Repr

/-- A row of the auth collaborator's user table: primary key and username
(the two attributes the views read). -/
structure User where
  id : Nat
  username : String
deriving DecidableEq, Repr

/-- `request.user`: Django's `AnonymousUser`, or an authenticated user
identified by primary key. -/
inductive Actor where
  | anonymous : Actor
  | auth : Nat → Actor
deriving DecidableEq, Repr

/-- `actor == u` for a `User` row `u`: `User.__eq__` compares primary
keys; an `AnonymousUser` equals no `User`. -/
def Actor.isUser : Actor → Nat → Bool
  | .anonymous, _ => false
  | .auth id, uid => id == uid

/-- The database state: the four tables the views touch. -/
structure DB where
  users : List User
  categories : List Category
  posts : List Post
  comments : List Comment
deriving DecidableEq, Repr

/-- `Post.objects.get(pk=pid)` / `get_object_or_404(Post, pk=pid)`
as an `Option`: the first post with the given primary key. -/
def findPost (db : DB) (pid : Nat) : Option Post :=
  db.posts.find? (fun p => p.id == pid)

/-- `get_object_or_404(User, username=...)`. -/
def findUserByUsername (db : DB) (username : String) : Option User :=
  db.users.find? (fun u => u.username == username)

/-- `get_object_or_404(Category, slug=...)`. -/
def findCategoryBySlug (db : DB) (slug : String) : Option Category :=
  db.categories.find? (fun c => c.slug == slug)

/-- `Post.is_viewable(self, now, user)` from models.py lines 98-103:

    return self.author == user or not (
        self.pub_date > now
        or not self.is_published
        or (self.category and not self.category.is_published)
    )

`self.category and not self.category.is_published` is Python truthiness:
`None` is falsy, a `Category` instance is truthy. -/
def Post.is_viewable (post : Post) (now : Int) (user : Actor) : Bool :=
  user.isUser post.author || !(
    decide (post.pub_date > now)
    || !post.is_published
    || (match post.category with
        | none => false
        | some c => !c.is_published))

/-- `Count('comments')`: the number of comment rows whose `post` FK is
this post's primary key. -/
def commentCount (db : DB) (p : Post) : Nat :=
  (db.comments.filter (fun c => c.post == p.id)).length

/-- `.annotate(comment_count=Count('comments'))`: pair each post of the
queryset with its comment count. -/
def annotateComments (db : DB) (ps : List Post) : List (Post × Nat) :=
  ps.map (fun p => (p, commentCount db p))

/-- One insertion step of the `order_by('-pub_date')` sort. -/
def insertByPubDateDesc (x : Post × Nat) : List (Post × Nat) → List (Post × Nat)
  | [] => [x]
  | y :: ys =>
      if y.1.pub_date ≤ x.1.pub_date then x :: y :: ys
      else y :: insertByPubDateDesc x ys

/-- `order_by('-pub_date')` (also `Post._meta.ordering = ('-pub_date',)`):
sort the annotated queryset by publication date, newest first. -/
def sortByPubDateDesc : List (Post × Nat) → List (Post × Nat)
  | [] => []
  | x :: xs => insertByPubDateDesc x (sortByPubDateDesc xs)

/-- `PostListView.queryset` from views.py lines 34-44:

    queryset = Post.objects.select_related(...).filter(
        category__is_published=True,
        pub_date__lte=timezone.now(),
        is_published=True,
    ).annotate(comment_count=Count('comments'))

This is a class attribute, so `timezone.now()` is evaluated exactly once,
when the class body executes at module import; `importNow` is that frozen
timestamp, shared by every subsequent request.  The lazy queryset itself
re-reads the tables (`db`) per request, but the `pub_date` cutoff does
not move.  `category__is_published=True` inner-joins on the category FK,
which excludes posts with a null category. -/
def PostListView_queryset (importNow : Int) (db : DB) : List (Post × Nat) :=
  sortByPubDateDesc (annotateComments db (db.posts.filter (fun p =>
    (match p.category with
     | none => false
     | some c => c.is_published)
    && decide (p.pub_date ≤ importNow)
    && p.is_published)))

/-- Result of the post-detail operation. -/
inductive DetailResult where
  | notFound : DetailResult
  | ok : Post → DetailResult
deriving DecidableEq, Repr

/-- `PostDetailView.get_object` from views.py lines 59-66:
`get_object_or_404(Post, pk=post_id)`, then `Http404` unless
`obj.is_viewable(timezone.now(), request.user)`.  Here `now` is the
request time (`timezone.now()` is called inside the method, fresh per
request). -/
def postDetail (db : DB) (now : Int) (actor : Actor) (post_id : Nat) : DetailResult :=
  match findPost db post_id with
  | none => .notFound
  | some obj =>
      if !(obj.is_viewable now actor) then .notFound
      else .ok obj

/-- Result of a feed (listing) operation: `Http404` or the annotated,
ordered queryset handed to the paginator. -/
inductive FeedResult where
  | notFound : FeedResult
  | ok : List (Post × Nat) → FeedResult
deriving DecidableEq, Repr

/-- `CategoryListView.get_queryset` from views.py lines 233-245:
`get_object_or_404(Category, slug=...)`; `Http404` if the category is
unpublished; otherwise `category.posts.filter(pub_date__lte=timezone.now(),
is_published=True).annotate(comment_count=...).order_by('-pub_date')`.
`timezone.now()` is called inside the method, fresh per request. -/
def categoryFeed (db : DB) (now : Int) (slug : String) : FeedResult :=
  match findCategoryBySlug db slug with
  | none => .notFound
  | some category =>
      if !category.is_published then .notFound
      else .ok (sortByPubDateDesc (annotateComments db
        ((db.posts.filter (fun p => p.category == some category)).filter
          (fun p => decide (p.pub_date ≤ now) && p.is_published))))

/-- `ProfileView.filter_published_posts` from views.py lines 169-178:
returns the queryset unchanged when `user == author`, else filters by
`is_published=True, pub_date__lte=now, category__is_published=True`. -/
def filter_published_posts (now : Int) (queryset : List (Post × Nat))
    (user : Actor) (author : User) : List (Post × Nat) :=
  if user.isUser author.id then queryset
  else queryset.filter (fun pn =>
    pn.1.is_published
    && decide (pn.1.pub_date ≤ now)
    && (match pn.1.category with
        | none => false
        | some c => c.is_published))

/-- `ProfileView.get_queryset` from views.py lines 180-194:
`get_object_or_404(User, username=...)`, then the profile's posts
annotated and ordered, passed through `filter_published_posts` with the
requesting user and the profile owner. -/
def profileFeed (db : DB) (now : Int) (actor : Actor) (username : String) : FeedResult :=
  match findUserByUsername db username with
  | none => .notFound
  | some profile =>
      .ok (filter_published_posts now
        (sortByPubDateDesc (annotateComments db
          (db.posts.filter (fun p => p.author == profile.id))))
        actor profile)

/-- The data a bound `PostForm` carries (fields from forms.py:
title, text, image, pub_date, location, category). -/
structure PostFormInput where
  title : String
  text : String
  image : String
  pub_date : Int
  location : Option Location
  category : Option Category
deriving DecidableEq, Repr

/-- `PostForm.is_valid()`: `title` (CharField, max_length=256), `text`
and `pub_date` are required; `category` has `blank=False` so the form
requires it; `image` and `location` are optional. -/
def postFormIsValid (f : PostFormInput) : Bool :=
  !(f.title == "") && decide (f.title.length ≤ 256)
    && !(f.text == "") && !(f.category == none)

/-- Saving a valid `PostForm` over an existing post: the form's fields
overwrite the instance's; `author` and `id` are untouched. -/
def applyPostForm (p : Post) (f : PostFormInput) : Post :=
  { p with
    title := f.title
    text := f.text
    image := f.image
    pub_date := f.pub_date
    location := f.location
    category := f.category }

/-- The data a bound `CommentForm` carries (fields from forms.py:
text only). -/
structure CommentFormInput where
  text : String
deriving DecidableEq, Repr

/-- `CommentForm.is_valid()`: `text` is required (a blank submission is
rejected). -/
def commentFormIsValid (f : CommentFormInput) : Bool :=
  !(f.text == "")

/-- Outcome of a guarded mutation view (post/comment edit or delete). -/
inductive MutResult where
  | notFound : MutResult
  | redirectToLogin : MutResult
  | redirectToPostDetail : Nat → MutResult
  | invalidForm : MutResult
  | mutated : MutResult
deriving DecidableEq, Repr

/-- `PostUpdateView` from views.py lines 100-122.  `dispatch` looks the
post up (404 if absent) and redirects non-authors to the post's detail
page; only then does control reach `LoginRequiredMixin.dispatch` (the
login redirect) and the form machinery, which on a valid form saves the
edited fields and on an invalid form re-renders without saving. -/
def postUpdate (db : DB) (actor : Actor) (post_id : Nat)
    (input : PostFormInput) : MutResult × DB :=
  match findPost db post_id with
  | none => (.notFound, db)
  | some post =>
      if !(actor.isUser post.author) then (.redirectToPostDetail post.id, db)
      else match actor with
        | .anonymous => (.redirectToLogin, db)
        | .auth _ =>
            if postFormIsValid input then
              let updated := db.posts.map (fun p =>
                if p.id == post.id then applyPostForm p input else p)
              (.mutated, { db with posts := updated })
            else (.invalidForm, db)

/-- `PostDeleteView` from views.py lines 125-148: same guard as
`PostUpdateView`; on success the post row is deleted and its comments
cascade-delete with it (`Comments.post` has `on_delete=CASCADE`). -/
def postDelete (db : DB) (actor : Actor) (post_id : Nat) : MutResult × DB :=
  match findPost db post_id with
  | none => (.notFound, db)
  | some post =>
      if !(actor.isUser post.author) then (.redirectToPostDetail post.id, db)
      else match actor with
        | .anonymous => (.redirectToLogin, db)
        | .auth _ =>
            let remainingPosts := db.posts.filter (fun p => !(p.id == post.id))
            let remainingComments :=
              db.comments.filter (fun c => !(c.post == post.id))
            (.mutated,
              { db with posts := remainingPosts, comments := remainingComments })

/-- `get_object_or_404(Comments, id=comment_id, post_id=post.pk)`: the
first comment matching both the id from the path and the post named in
the path. -/
def findCommentOfPost (db : DB) (comment_id post_pk : Nat) : Option Comment :=
  db.comments.find? (fun c => c.id == comment_id && c.post == post_pk)

/-- `CommentUpdateView` from views.py lines 280-326.  `dispatch` looks up
the path's post (404 if absent), then the comment constrained to that
post (404 if absent or belonging to another post), redirects non-authors
to the post's detail page, and only then reaches the login check and the
form machinery; a valid form rewrites the comment's text, an invalid one
re-renders without saving. -/
def commentUpdate (db : DB) (actor : Actor) (post_id comment_id : Nat)
    (input : CommentFormInput) : MutResult × DB :=
  match findPost db post_id with
  | none => (.notFound, db)
  | some post =>
      match findCommentOfPost db comment_id post.id with
      | none => (.notFound, db)
      | some comment =>
          if !(actor.isUser comment.author) then
            (.redirectToPostDetail post.id, db)
          else match actor with
            | .anonymous => (.redirectToLogin, db)
            | .auth _ =>
                if commentFormIsValid input then
                  let updated := db.comments.map (fun c =>
                    if c.id == comment.id then { c with text := input.text }
                    else c)
                  (.mutated, { db with comments := updated })
                else (.invalidForm, db)

/-- `CommentDeleteView` from views.py lines 329-374: same guard as
`CommentUpdateView`; on success the comment row is deleted. -/
def commentDelete (db : DB) (actor : Actor) (post_id comment_id : Nat) :
    MutResult × DB :=
  match findPost db post_id with
  | none => (.notFound, db)
  | some post =>
      match findCommentOfPost db comment_id post.id with
      | none => (.notFound, db)
      | some comment =>
          if !(actor.isUser comment.author) then
            (.redirectToPostDetail post.id, db)
          else match actor with
            | .anonymous => (.redirectToLogin, db)
            | .auth _ =>
                let remaining :=
                  db.comments.filter (fun c => !(c.id == comment.id))
                (.mutated, { db with comments := remaining })

/-- Outcome of `AddCommentView`. -/
inductive AddCommentResult where
  | redirectToLogin : AddCommentResult
  | notFound : AddCommentResult
  | redirectToPostDetail : Nat → AddCommentResult
  | created : Comment → AddCommentResult
deriving DecidableEq, Repr

/-- `AddCommentView` from views.py lines 253-277.  `LoginRequiredMixin`
redirects anonymous users to login.  The form is validated first; on an
invalid form `form_invalid` redirects to the post-detail page of the id
in the path without touching the database.  On a valid form `form_valid`
runs `get_object_or_404(Post, pk=post_id)` (404 if the post is absent —
no visibility check), stamps the comment with the requesting user and
the post, and saves it.  `newId` is the primary key the database assigns
to the new row and `now` its `auto_now_add` timestamp. -/
def addComment (db : DB) (actor : Actor) (post_id : Nat)
    (input : CommentFormInput) (newId : Nat) (now : Int) :
    AddCommentResult × DB :=
  match actor with
  | .anonymous => (.redirectToLogin, db)
  | .auth uid =>
      if commentFormIsValid input then
        match findPost db post_id with
        | none => (.notFound, db)
        | some post =>
            let c : Comment :=
              ⟨newId, input.text, post.id, now, uid⟩
            (.created c, { db with comments := db.comments ++ [c] })
      else (.redirectToPostDetail post_id, db)

/-! Sample rows used by the concrete witnesses below. -/

/-- A published sample category. -/
def newsCat : Category := ⟨1, "News", "daily news", "news", true⟩

/-- An unpublished sample category. -/
def draftCat : Category := ⟨2, "Drafts", "hidden", "drafts", false⟩

/-- A visible sample post by user 1 in the published category. -/
def visiblePost : Post :=
  ⟨1, "hello", "body", "", 5, true, 1, none, some newsCat⟩

/-- An unpublished sample post by user 1. -/
def hiddenPost : Post :=
  ⟨2, "secret", "draft body", "", 5, false, 1, none, some newsCat⟩

/-- A sample post by user 1 in the unpublished category. -/
def draftCatPost : Post :=
  ⟨3, "parked", "parked body", "", 5, true, 1, none, some draftCat⟩

/-- A sample comment by user 2 on `visiblePost`. -/
def exComment : Comment := ⟨1, "nice", 1, 6, 2⟩

/-- A small concrete database: two users, both sample categories, the
three sample posts, one comment. -/
def exDB : DB :=
  ⟨[⟨1, "alice"⟩, ⟨2, "bob"⟩],
   [newsCat, draftCat],
   [visiblePost, hiddenPost, draftCatPost],
   [exComment]⟩

/-- A sample bound comment form with valid content. -/
def exCommentForm : CommentFormInput := ⟨"hello there"⟩

/-- A sample bound comment form with invalid (blank) content. -/
def blankCommentForm : CommentFormInput := ⟨""⟩

/-- A sample bound post form with valid content. -/
def exPostForm : PostFormInput :=
  ⟨"edited title", "edited body", "", 4, none, some newsCat⟩

/-! Theorems. -/

/-- Membership is invariant under one insertion step of the sort. -/
theorem mem_insertByPubDateDesc (a x : Post × Nat) (l : List (Post × Nat)) :
    a ∈ insertByPubDateDesc x l ↔ a = x ∨ a ∈ l := by
  induction l with
  | nil => simp [insertByPubDateDesc]
  | cons y ys ih =>
      by_cases h : y.1.pub_date ≤ x.1.pub_date
      · simp [insertByPubDateDesc, h]
      · simp [insertByPubDateDesc, h, ih]
        tauto

/-- Membership is invariant under the `order_by('-pub_date')` sort. -/
theorem mem_sortByPubDateDesc (a : Post × Nat) (l : List (Post × Nat)) :
    a ∈ sortByPubDateDesc l ↔ a ∈ l := by
  induction l with
  | nil => simp [sortByPubDateDesc]
  | cons x xs ih =>
      simp [sortByPubDateDesc, mem_insertByPubDateDesc, ih]

/-- Membership in an annotated queryset: the post is in the underlying
queryset and the annotation is its comment count. -/
theorem mem_annotateComments (db : DB) (pn : Post × Nat) (ps : List Post) :
    pn ∈ annotateComments db ps ↔
      pn.1 ∈ ps ∧ pn.2 = commentCount db pn.1 := by
  unfold annotateComments
  constructor
  · intro h
    rcases List.mem_map.mp h with ⟨p, hp, he⟩
    cases he
    exact ⟨hp, rfl⟩
  · rintro ⟨h1, h2⟩
    exact List.mem_map.mpr ⟨pn.1, h1, by cases pn; simp_all⟩

/-- C1: the visibility predicate equals the spec's positive formulation:
viewable iff the actor is the author, or (`pub_date <= now` and
`is_published` and the category is null or published); in particular the
author always sees the post. -/
theorem is_viewable_spec (post : Post) (now : Int) (user : Actor) :
    (post.is_viewable now user = true ↔
      (user = Actor.auth post.author ∨
        (post.pub_date ≤ now ∧ post.is_published = true ∧
          (post.category = none ∨
            ∃ c, post.category = some c ∧ c.is_published = true))))
    ∧ post.is_viewable now (Actor.auth post.author) = true := by
  constructor
  · unfold Post.is_viewable Actor.isUser
    cases user with
    | anonymous =>
      cases hc : post.category with
      | none => simp [hc]
      | some c => simp [hc]; tauto
    | auth uid =>
      cases hc : post.category with
      | none => simp [hc]
      | some c => simp [hc]; tauto
  · unfold Post.is_viewable Actor.isUser
    simp

/-- C2: the spec requires the global feed's `pub_date` cutoff to be the
request time, re-evaluated per request.  The code evaluates
`timezone.now()` once, in the class body of `PostListView`, so the cutoff
is the import time.  Concretely: `visiblePost` (pub_date 5, published,
published category) is in the feed the code itself would build with
cutoff 10, yet a server imported at time 3 serves a request made at time
10 a feed in which the post never appears. -/
theorem postListView_frozen_now_cutoff :
    (visiblePost, 1) ∈ PostListView_queryset 10 exDB
    ∧ (∀ pn ∈ PostListView_queryset 3 exDB, pn.1 ≠ visiblePost) := by
  decide

/-- C3: whatever the cutoff timestamp and database, every entry of the
global feed has a category, and that category is published (the
`category__is_published=True` filter inner-joins, excluding null
categories). -/
theorem globalFeed_category_published (importNow : Int) (db : DB)
    (pn : Post × Nat) (h : pn ∈ PostListView_queryset importNow db) :
    ∃ c, pn.1.category = some c ∧ c.is_published = true := by
  unfold PostListView_queryset at h
  rw [mem_sortByPubDateDesc, mem_annotateComments] at h
  rcases h with ⟨h1, _⟩
  rcases List.mem_filter.mp h1 with ⟨_, hp⟩
  cases hc : pn.1.category with
  | none => rw [hc] at hp; simp at hp
  | some c =>
      rw [hc] at hp
      simp only [Bool.and_eq_true] at hp
      exact ⟨c, rfl, hp.1.1⟩

/-- Witness for `globalFeed_category_published` at a concrete feed
entry. -/
theorem globalFeed_category_published_witness :
    ∃ c, (visiblePost, 1).1.category = some c ∧ c.is_published = true :=
  globalFeed_category_published 10 exDB (visiblePost, 1) (by decide)

/-- C4: post detail succeeds exactly on an existing, viewable post; a
missing post and an existing-but-not-viewable post both produce the same
`notFound` outcome. -/
theorem postDetail_notFound_spec (db : DB) (now : Int) (actor : Actor)
    (pid : Nat) :
    (∀ p : Post, postDetail db now actor pid = .ok p ↔
        (findPost db pid = some p ∧ p.is_viewable now actor = true))
    ∧ ((findPost db pid = none
        ∨ ∃ p, findPost db pid = some p ∧ p.is_viewable now actor = false)
       → postDetail db now actor pid = .notFound) := by
  unfold postDetail
  cases hf : findPost db pid with
  | none => simp [hf]
  | some q =>
      by_cases hv : q.is_viewable now actor = true
      · constructor
        · intro p
          simp only [hv, Bool.not_true, Bool.false_eq_true, if_false]
          constructor
          · intro he
            cases he
            exact ⟨rfl, hv⟩
          · rintro ⟨hq, _⟩
            cases hq
            rfl
        · rintro (hnone | ⟨p, hp, hpv⟩)
          · exact absurd hnone (by simp)
          · cases hp
            rw [hv] at hpv
            cases hpv
      · have hv' : q.is_viewable now actor = false := by
          cases hb : q.is_viewable now actor
          · rfl
          · exact absurd hb hv
        constructor
        · intro p
          simp only [hv', Bool.not_false, if_true]
          constructor
          · intro he
            cases he
          · rintro ⟨hq, hpv⟩
            cases hq
            rw [hv'] at hpv
            cases hpv
        · intro _
          simp [hv']

/-- Witness for `postDetail_notFound_spec`: a request for a nonexistent
post id yields `notFound`. -/
theorem postDetail_notFound_spec_witness :
    postDetail exDB 10 Actor.anonymous 99 = DetailResult.notFound :=
  (postDetail_notFound_spec exDB 10 Actor.anonymous 99).2 (Or.inl (by decide))

/-- C5: the category feed signals `notFound` when no category matches the
slug or the matched category is unpublished (it never degrades to an
empty list); on a published category it returns exactly that category's
posts with `is_published = true` and `pub_date <= now`, annotated with
their comment counts. -/
theorem categoryFeed_spec (db : DB) (now : Int) (slug : String) :
    ((findCategoryBySlug db slug = none
        ∨ ∃ c, findCategoryBySlug db slug = some c ∧ c.is_published = false)
      → categoryFeed db now slug = .notFound)
    ∧ (∀ c, findCategoryBySlug db slug = some c → c.is_published = true →
        ∃ l, categoryFeed db now slug = .ok l ∧
          ∀ pn : Post × Nat, pn ∈ l ↔
            (pn.1 ∈ db.posts ∧ pn.1.category = some c ∧ pn.1.pub_date ≤ now
              ∧ pn.1.is_published = true ∧ pn.2 = commentCount db pn.1)) := by
  constructor
  · rintro (hnone | ⟨c, hc, hunpub⟩)
    · unfold categoryFeed
      rw [hnone]
    · unfold categoryFeed
      rw [hc]
      simp [hunpub]
  · intro c hc hpub
    have hfeed : categoryFeed db now slug
        = .ok (sortByPubDateDesc (annotateComments db
            ((db.posts.filter (fun p => p.category == some c)).filter
              (fun p => decide (p.pub_date ≤ now) && p.is_published)))) := by
      unfold categoryFeed
      rw [hc]
      simp [hpub]
    refine ⟨_, hfeed, ?_⟩
    intro pn
    rw [mem_sortByPubDateDesc, mem_annotateComments]
    constructor
    · rintro ⟨h1, h2⟩
      rcases List.mem_filter.mp h1 with ⟨h3, h4⟩
      rcases List.mem_filter.mp h3 with ⟨h5, h6⟩
      simp only [Bool.and_eq_true, decide_eq_true_eq, beq_iff_eq] at h4 h6
      exact ⟨h5, h6, h4.1, h4.2, h2⟩
    · rintro ⟨h1, h2, h3, h4, h5⟩
      refine ⟨List.mem_filter.mpr ⟨List.mem_filter.mpr ⟨h1, ?_⟩, ?_⟩, h5⟩
      · simp [h2]
      · simp [h3, h4]

/-- Witness for `categoryFeed_spec`: the unpublished category slug
"drafts" yields `notFound`. -/
theorem categoryFeed_spec_witness :
    categoryFeed exDB 10 "drafts" = FeedResult.notFound :=
  (categoryFeed_spec exDB 10 "drafts").1
    (Or.inr ⟨draftCat, by decide, by decide⟩)

/-- C6: for a fixed time, the profile feed the owner sees contains every
entry of the profile feed any other actor sees for the same profile —
the owner's view skips the visibility filter, the other view applies
it. -/
theorem profileFeed_owner_superset (db : DB) (now : Int) (username : String)
    (owner : User) (A : Actor)
    (howner : findUserByUsername db username = some owner)
    (hA : A.isUser owner.id = false) :
    ∃ lo la, profileFeed db now (Actor.auth owner.id) username = .ok lo
      ∧ profileFeed db now A username = .ok la
      ∧ ∀ x, x ∈ la → x ∈ lo := by
  have hown : (Actor.auth owner.id).isUser owner.id = true := by
    simp [Actor.isUser]
  unfold profileFeed filter_published_posts
  rw [howner]
  simp only [hA, hown, if_true, Bool.false_eq_true, if_false]
  exact ⟨_, _, rfl, rfl, fun x hx => List.mem_of_mem_filter hx⟩

/-- Witness for `profileFeed_owner_superset`: Alice's own view of her
profile versus Bob's view of it. -/
theorem profileFeed_owner_superset_witness :
    ∃ lo la, profileFeed exDB 10 (Actor.auth 1) "alice" = .ok lo
      ∧ profileFeed exDB 10 (Actor.auth 2) "alice" = .ok la
      ∧ ∀ x, x ∈ la → x ∈ lo :=
  profileFeed_owner_superset exDB 10 "alice" ⟨1, "alice"⟩ (Actor.auth 2)
    (by decide) (by decide)

/-- C7: when every comment carrying the id from the path belongs to a
post other than the one named in the path — in particular when the
comment exists but on an unrelated post, and vacuously when no such
comment exists — both comment mutation views signal `notFound` with the
database untouched, one outcome for both causes. -/
theorem commentMutation_crossPost_notFound (db : DB) (actor : Actor)
    (post_id comment_id : Nat) (post : Post) (input : CommentFormInput)
    (hp : findPost db post_id = some post)
    (h : ∀ c ∈ db.comments, c.id = comment_id → c.post ≠ post.id) :
    commentUpdate db actor post_id comment_id input = (.notFound, db)
    ∧ commentDelete db actor post_id comment_id = (.notFound, db) := by
  have hfind : findCommentOfPost db comment_id post.id = none := by
    unfold findCommentOfPost
    rw [List.find?_eq_none]
    intro c hc
    simp only [Bool.and_eq_true, beq_iff_eq, not_and]
    exact h c hc
  constructor
  · unfold commentUpdate
    rw [hp]
    simp [hfind]
  · unfold commentDelete
    rw [hp]
    simp [hfind]

/-- Witness for `commentMutation_crossPost_notFound`: `exComment` lives
on post 1; requesting its deletion through post 2's path yields
`notFound`. -/
theorem commentMutation_crossPost_notFound_witness :
    commentDelete exDB (Actor.auth 2) 2 1 = (MutResult.notFound, exDB) :=
  (commentMutation_crossPost_notFound exDB (Actor.auth 2) 2 1 hiddenPost
    exCommentForm (by decide) (by decide)).2

/-- C8: an authenticated actor who is not the author gets redirected to
the post's detail page by all four mutation views (post edit/delete,
comment edit/delete), and the database is returned unchanged — the
denial happens in `dispatch`, before any write. -/
theorem deniedMutation_redirects_and_preserves (db : DB) (a : Nat)
    (post_id comment_id : Nat) (pin : PostFormInput) (cin : CommentFormInput)
    (post : Post) (hp : findPost db post_id = some post) :
    (post.author ≠ a →
      postUpdate db (Actor.auth a) post_id pin
        = (.redirectToPostDetail post.id, db)
      ∧ postDelete db (Actor.auth a) post_id
        = (.redirectToPostDetail post.id, db))
    ∧ (∀ comment, findCommentOfPost db comment_id post.id = some comment →
        comment.author ≠ a →
        commentUpdate db (Actor.auth a) post_id comment_id cin
          = (.redirectToPostDetail post.id, db)
        ∧ commentDelete db (Actor.auth a) post_id comment_id
          = (.redirectToPostDetail post.id, db)) := by
  constructor
  · intro hne
    have hu : (Actor.auth a).isUser post.author = false := by
      simp [Actor.isUser]
      omega
    constructor
    · unfold postUpdate
      rw [hp]
      simp [hu]
    · unfold postDelete
      rw [hp]
      simp [hu]
  · intro comment hc hne
    have hu : (Actor.auth a).isUser comment.author = false := by
      simp [Actor.isUser]
      omega
    constructor
    · unfold commentUpdate
      rw [hp]
      simp [hc, hu]
    · unfold commentDelete
      rw [hp]
      simp [hc, hu]

/-- Witness for `deniedMutation_redirects_and_preserves`: Bob (user 2)
cannot delete Alice's post 1; Alice (user 1) cannot delete Bob's comment
1 on that post.  Both get the detail-page redirect and the database is
unchanged. -/
theorem deniedMutation_redirects_and_preserves_witness :
    (postDelete exDB (Actor.auth 2) 1
      = (MutResult.redirectToPostDetail 1, exDB))
    ∧ (commentDelete exDB (Actor.auth 1) 1 1
      = (MutResult.redirectToPostDetail 1, exDB)) :=
  ⟨((deniedMutation_redirects_and_preserves exDB 2 1 1 exPostForm
      exCommentForm visiblePost (by decide)).1 (by decide)).2,
   ((deniedMutation_redirects_and_preserves exDB 1 1 1 exPostForm
      exCommentForm visiblePost (by decide)).2 exComment (by decide)
      (by decide)).2⟩

/-- C9: an add-comment request whose form fails validation redirects to
the post-detail page of the id in the path and leaves the database
exactly as it was — nothing is persisted. -/
theorem addComment_invalid_no_persistence (db : DB) (a : Nat)
    (post_id : Nat) (input : CommentFormInput) (newId : Nat) (now : Int)
    (h : commentFormIsValid input = false) :
    addComment db (Actor.auth a) post_id input newId now
      = (.redirectToPostDetail post_id, db) := by
  unfold addComment
  simp [h]

/-- Witness for `addComment_invalid_no_persistence`: a blank comment on
post 1 is rejected without persistence. -/
theorem addComment_invalid_no_persistence_witness :
    addComment exDB (Actor.auth 2) 1 blankCommentForm 7 11
      = (AddCommentResult.redirectToPostDetail 1, exDB) :=
  addComment_invalid_no_persistence exDB 2 1 blankCommentForm 7 11 (by decide)

/-- C10: a valid add-comment request by any authenticated actor against
any existing post succeeds and appends a comment stamped with that actor
and that post — no visibility check is consulted anywhere on the path. -/
theorem addComment_ignores_visibility (db : DB) (a : Nat) (post_id : Nat)
    (input : CommentFormInput) (newId : Nat) (now : Int) (post : Post)
    (hp : findPost db post_id = some post)
    (hv : commentFormIsValid input = true) :
    ∃ c db2, addComment db (Actor.auth a) post_id input newId now
        = (.created c, db2)
      ∧ c.author = a ∧ c.post = post.id ∧ c ∈ db2.comments
      ∧ db2.posts = db.posts := by
  unfold addComment
  rw [hv]
  simp only [if_true]
  rw [hp]
  exact ⟨_, _, rfl, rfl, rfl, List.mem_append_right _ (List.mem_singleton.mpr rfl), rfl⟩

/-- Witness for `addComment_ignores_visibility`: `hiddenPost` (id 2) is
not viewable by user 2 at time 10, yet user 2's valid comment on it is
created and persisted. -/
theorem addComment_ignores_visibility_witness :
    hiddenPost.is_viewable 10 (Actor.auth 2) = false
    ∧ ∃ c db2, addComment exDB (Actor.auth 2) 2 exCommentForm 7 11
        = (.created c, db2)
      ∧ c.author = 2 ∧ c.post = hiddenPost.id ∧ c ∈ db2.comments
      ∧ db2.posts = exDB.posts :=
  ⟨by decide,
   addComment_ignores_visibility exDB 2 2 exCommentForm 7 11 hiddenPost
     (by decide) (by decide)⟩
